import Mathlib

/-!
# Verification of the aml_batch_endpoint training/scoring pipeline

A shallow embedding, in Lean, of the two scripts of this repository:

* `aml-batch-endpoint-mlflow/endpoint-1/src/train.py` — training driver
  (data split, epoch loop, model persistence via `save_model`);
* `aml_batch_endpoint/endpoint_1/src/score_local.py` — local scoring driver
  (enumerate image files, run predictions, map class indices to labels).

Python numbers are modelled as exact rationals/integers; the filesystem
operations of `save_model` (`shutil.rmtree(..., ignore_errors=True)`,
`shutil.copytree(..., dirs_exist_ok=True)`, `mlflow.pytorch.save_model`)
are modelled as operations on an explicit directory-contents state; the
error flow of the straight-line script is modelled as a sequence of
fallible steps run in program order, stopping at the first uncaught error.
-/

set_option autoImplicit false

namespace Train

/-- Python's `int()` conversion applied to a (real-valued) number truncates
toward zero: `int(2.5) = 2`, `int(-2.5) = -2`. -/
def pyInt (q : ℚ) : ℤ :=
  if q < 0 then -⌊-q⌋ else ⌊q⌋

/-- The two split sizes computed inside `load_train_val_data`
(train.py lines 50–52). -/
structure SplitLengths where
  train_len : ℤ
  val_len : ℤ
deriving DecidableEq

/-- The length computation of `load_train_val_data` (train.py lines 50–52):
`train_len = int(full_train_len * training_fraction)` and
`val_len = full_train_len - train_len`.  `full_train_len` is the length of
the full FashionMNIST training set, `training_fraction` the fraction given
by the caller (`train` passes `0.8`). -/
def load_train_val_data (full_train_len : ℕ) (training_fraction : ℚ) : SplitLengths :=
  let train_len := pyInt ((full_train_len : ℚ) * training_fraction)
  { train_len := train_len, val_len := (full_train_len : ℤ) - train_len }

/-! ## `save_model` (train.py lines 61–78)

`save_model` serializes the model (with its accompanying source files) to a
fresh temporary directory, then deletes the destination directory with
`shutil.rmtree(model_dir, ignore_errors=True)` and copies the temporary
directory over with `shutil.copytree(temp_path, model_dir, dirs_exist_ok=True)`.
Directory contents are modelled as flat association lists of
(relative path, file content); a directory that does not exist is `none`. -/

/-- The pipeline treats the model as an opaque, framework-owned parameter
set; we model it as an opaque identifier. -/
abbrev Model := Nat

/-- The possible contents of a file inside a model directory. -/
inductive FileContent where
  /-- The tracking library's `MLmodel` configuration file. -/
  | mlmodelConfig : FileContent
  /-- The serialized parameter set of a model. -/
  | weights : Model → FileContent
  /-- A source file shipped next to the model (`code_paths`). -/
  | sourceCode : String → FileContent
  /-- Any other file (e.g. contents that predate the save). -/
  | other : String → FileContent
deriving DecidableEq

/-- The contents of one directory: named files. -/
abbrev DirTree := List (String × FileContent)

/-- Modelled from the spec: the saved model artifact written by
`mlflow.pytorch.save_model(pytorch_model=model, path=temp_path,
code_paths=full_code_paths)` is "a directory structure + accompanying
source files, owned by the tracking library's serialization format"
(the mlflow library itself is not part of this repository).  The
`code_paths` of train.py line 65 are `neural_network.py` and
`utils_train_nn.py`. -/
def mlflow_pytorch_save_model_artifact (model : Model) : DirTree :=
  [("MLmodel", FileContent.mlmodelConfig),
   ("data/model.pth", FileContent.weights model),
   ("code/neural_network.py", FileContent.sourceCode "neural_network"),
   ("code/utils_train_nn.py", FileContent.sourceCode "utils_train_nn")]

/-- Modelled from the spec: `mlflow.pytorch.load_model` reads a model
back from a saved artifact directory — it needs the `MLmodel`
configuration file and the serialized weights, and fails otherwise. -/
def mlflow_pytorch_load_model (d : DirTree) : Option Model :=
  match d.lookup "MLmodel", d.lookup "data/model.pth" with
  | some FileContent.mlmodelConfig, some (FileContent.weights m) => some m
  | _, _ => none

/-- `shutil.rmtree(dir, ignore_errors=True)`: removes the directory tree;
if an error is raised during removal it is ignored (no exception
propagates) and the directory is left in place.  A call on a non-existent
directory raises `FileNotFoundError`, which `ignore_errors=True` also
swallows. -/
def shutil_rmtree_ignore_errors (dir : Option DirTree) (errorRaised : Bool) :
    Option DirTree :=
  match errorRaised with
  | true => dir
  | false => none

/-- `shutil.copytree(src, dst, dirs_exist_ok=True)`: copies `src` to `dst`;
if `dst` does not exist it is created with exactly the files of `src`; if
it exists, the files of `src` are copied into it, overwriting files with
the same name and leaving the others in place. -/
def shutil_copytree_dirs_exist_ok (src : DirTree) (dst : Option DirTree) :
    DirTree :=
  match dst with
  | none => src
  | some d => d.filter (fun p => (src.lookup p.1).isNone) ++ src

/-- The successive observable states of `model_dir` while `save_model`
runs (train.py lines 61–78), given its prior contents `prior` and the Bool
`rmtreeErrorRaised` telling whether the `shutil.rmtree` call raised an
internal error (which `ignore_errors=True` swallows):
1. on entry, and while `mlflow.pytorch.save_model` writes the fresh
   temporary directory `temp_path` (lines 70–74), `model_dir` is untouched;
2. after `shutil.rmtree(model_dir, ignore_errors=True)` (line 77);
3. after `shutil.copytree(temp_path, model_dir, dirs_exist_ok=True)`
   (line 78). -/
def save_model_dir_states (prior : Option DirTree) (model : Model)
    (rmtreeErrorRaised : Bool) : List (Option DirTree) :=
  let temp_artifact := mlflow_pytorch_save_model_artifact model
  let after_rmtree := shutil_rmtree_ignore_errors prior rmtreeErrorRaised
  [prior,
   prior,
   after_rmtree,
   some (shutil_copytree_dirs_exist_ok temp_artifact after_rmtree)]

/-- The contents of `model_dir` after `save_model` returns. -/
def save_model_result (prior : Option DirTree) (model : Model)
    (rmtreeErrorRaised : Bool) : DirTree :=
  shutil_copytree_dirs_exist_ok (mlflow_pytorch_save_model_artifact model)
    (shutil_rmtree_ignore_errors prior rmtreeErrorRaised)

/-- A stale file predating a `save_model` call, used as a concrete prior
content of `model_dir` in witnesses and counterexamples. -/
def staleFile : String × FileContent := ("old.txt", FileContent.other "stale")

/-! ## The `train` driver (train.py lines 81–110) as a sequence of steps

`train` is a straight-line script: it loads and splits the data
(`load_train_val_data`, lines 89–90), instantiates the model (line 91),
then for each of `epochs = 5` epochs calls `fit`, `evaluate` and
`mlflow.log_metrics` (lines 95–108), and finally calls `save_model`
(line 110), which writes the temp artifact, runs `rmtree` and `copytree`.
Nothing in the script catches an exception; the only place an error is
swallowed is the `ignore_errors=True` of the `rmtree` call.  We model the
script as the list of its steps in program order, each step paired with
the result its external call produces, and run the list sequentially,
stopping at the first uncaught error. -/

/-- Errors raised by external calls (messages). -/
abbrev Err := String

deriving instance DecidableEq for Except

/-- The observable steps of the training script, in program order. -/
inductive Event where
  /-- Load the full FashionMNIST training data (lines 46–49). -/
  | loadData : Event
  /-- `random_split` of the full data (lines 53–54). -/
  | split : Event
  /-- `NeuralNetwork()` (line 91). -/
  | instantiateModel : Event
  /-- `fit(...)` for one epoch (lines 97–98). -/
  | fit : Nat → Event
  /-- `evaluate(...)` for one epoch (lines 99–100). -/
  | evaluate : Nat → Event
  /-- `mlflow.log_metrics(metrics, step=epoch)` (line 108). -/
  | logMetrics : Nat → Event
  /-- `mlflow.pytorch.save_model` to the temp path (lines 72–74). -/
  | mlflowSaveTemp : Event
  /-- `shutil.rmtree(model_dir, ignore_errors=True)` (line 77). -/
  | rmtreeDest : Event
  /-- `shutil.copytree(temp_path, model_dir, dirs_exist_ok=True)` (line 78). -/
  | copytreeDest : Event
deriving DecidableEq

/-- The results the external calls of one run of the training script
produce: each fallible call either returns normally or raises an error. -/
structure TrainEnv where
  loadDataResult : Except Err Unit
  fitResult : Nat → Except Err Unit
  evaluateResult : Nat → Except Err Unit
  logMetricsResult : Nat → Except Err Unit
  mlflowSaveResult : Except Err Unit
  rmtreeResult : Except Err Unit
  copytreeResult : Except Err Unit

/-- `shutil.rmtree` as the script observes it: with `ignore_errors=True`
(how train.py line 77 calls it), an internal error never reaches the
caller; with `ignore_errors=False` it would propagate. -/
def rmtree_with_ignore_errors (ignoreErrors : Bool) (r : Except Err Unit) :
    Except Err Unit :=
  match ignoreErrors with
  | true => Except.ok ()
  | false => r

/-- The steps of one run of `train` in program order, each with the result
its external call produces.  `epochs = 5` (train.py line 87). -/
def trainSteps (env : TrainEnv) : List (Event × Except Err Unit) :=
  [(Event.loadData, env.loadDataResult),
   (Event.split, Except.ok ()),
   (Event.instantiateModel, Except.ok ())]
  ++ (List.range 5).flatMap (fun epoch =>
      [(Event.fit epoch, env.fitResult epoch),
       (Event.evaluate epoch, env.evaluateResult epoch),
       (Event.logMetrics epoch, env.logMetricsResult epoch)])
  ++ [(Event.mlflowSaveTemp, env.mlflowSaveResult),
      (Event.rmtreeDest, rmtree_with_ignore_errors true env.rmtreeResult),
      (Event.copytreeDest, env.copytreeResult)]

/-- Run a list of steps in program order.  The script catches nothing, so
the first step whose call raises terminates the run with that error,
unmodified; otherwise the run performs every step and returns normally.
Produces the events that actually ran and the final outcome. -/
def runSteps : List (Event × Except Err Unit) → List Event × Except Err Unit
  | [] => ([], Except.ok ())
  | (ev, Except.error e) :: _ => ([ev], Except.error e)
  | (ev, Except.ok ()) :: rest =>
      let r := runSteps rest
      (ev :: r.1, r.2)

/-- One run of the training script. -/
def trainRun (env : TrainEnv) : List Event × Except Err Unit :=
  runSteps (trainSteps env)

/-- The environment of a run in which every external call succeeds. -/
def okEnv : TrainEnv :=
  { loadDataResult := Except.ok (),
    fitResult := fun _ => Except.ok (),
    evaluateResult := fun _ => Except.ok (),
    logMetricsResult := fun _ => Except.ok (),
    mlflowSaveResult := Except.ok (),
    rmtreeResult := Except.ok (),
    copytreeResult := Except.ok () }

/-- A point of the training script at which an external call can fail. -/
inductive FailPoint where
  | loadData : FailPoint
  | fit : Fin 5 → FailPoint
  | evaluate : Fin 5 → FailPoint
  | logMetrics : Fin 5 → FailPoint
  | mlflowSave : FailPoint
  | rmtree : FailPoint
  | copytree : FailPoint
deriving DecidableEq

/-- The environment in which every external call succeeds except the one
at `p`, which raises the error `e`. -/
def injectFailure (p : FailPoint) (e : Err) : TrainEnv :=
  match p with
  | FailPoint.loadData => { okEnv with loadDataResult := Except.error e }
  | FailPoint.fit i =>
      { okEnv with fitResult := fun n => if n = i.val then Except.error e else Except.ok () }
  | FailPoint.evaluate i =>
      { okEnv with evaluateResult := fun n => if n = i.val then Except.error e else Except.ok () }
  | FailPoint.logMetrics i =>
      { okEnv with logMetricsResult := fun n => if n = i.val then Except.error e else Except.ok () }
  | FailPoint.mlflowSave => { okEnv with mlflowSaveResult := Except.error e }
  | FailPoint.rmtree => { okEnv with rmtreeResult := Except.error e }
  | FailPoint.copytree => { okEnv with copytreeResult := Except.error e }

/-- The full event sequence of a successful run: load, split, instantiate,
then fit/evaluate/log for epochs 0–4 in order, then the three steps of the
single `save_model` call. -/
def fullTrainTrace : List Event :=
  [Event.loadData, Event.split, Event.instantiateModel,
   Event.fit 0, Event.evaluate 0, Event.logMetrics 0,
   Event.fit 1, Event.evaluate 1, Event.logMetrics 1,
   Event.fit 2, Event.evaluate 2, Event.logMetrics 2,
   Event.fit 3, Event.evaluate 3, Event.logMetrics 3,
   Event.fit 4, Event.evaluate 4, Event.logMetrics 4,
   Event.mlflowSaveTemp, Event.rmtreeDest, Event.copytreeDest]

/-! ## The CLI of train.py (lines 113–124)

`main` builds an `argparse.ArgumentParser` with exactly two options,
`--data_dir` (default `DATA_DIR`) and `--model_dir` (default `MODEL_DIR`);
any other flag makes `parse_args` reject the command line. -/

/-- train.py line 21. -/
def DATA_DIR : String := "aml-batch-endpoint-mlflow/data"

/-- train.py line 22. -/
def MODEL_DIR : String := "aml-batch-endpoint-mlflow/endpoint-1/model"

/-- The parsed arguments of train.py's `main`. -/
structure TrainArgs where
  data_dir : String
  model_dir : String
deriving DecidableEq

/-- The `parse_args` of the parser built in train.py lines 116–118: it
consumes `--data_dir <value>` and `--model_dir <value>` pairs, updating
the corresponding argument, and rejects (errors on) any other flag or a
flag with its value missing.  `none` models `parse_args` exiting with a
usage error. -/
def train_parse_args : List String → TrainArgs → Option TrainArgs
  | [], acc => some acc
  | flag :: v :: rest, acc =>
      if flag = "--data_dir" then train_parse_args rest { acc with data_dir := v }
      else if flag = "--model_dir" then train_parse_args rest { acc with model_dir := v }
      else none
  | _ :: [], _ => none

/-- The argument parsing of train.py's `main` (lines 116–119): the parser
holds exactly the two options, each with its default. -/
def train_main_args (argv : List String) : Option TrainArgs :=
  train_parse_args argv { data_dir := DATA_DIR, model_dir := MODEL_DIR }

end Train

namespace ScoreLocal

/-! ## The scoring script `score_local.py`

`main` loads the model from the hardcoded `MODEL_DIR`, lists the regular
files directly inside the hardcoded `IMAGES_DIR`, wraps them in a dataset,
runs `predict` over it, and maps each predicted class index to its label
string through `FashionMNIST.classes`. -/

/-- score_local.py line 14: the images directory is a hardcoded constant,
not a CLI flag. -/
def IMAGES_DIR : String := "aml_batch_endpoint/test_data/images"

/-- score_local.py line 15: the model directory is a hardcoded constant,
not a CLI flag. -/
def MODEL_DIR : String := "aml_batch_endpoint/endpoint_1/model"

/-- One directory entry of `Path(IMAGES_DIR).iterdir()`: its path and
whether it is a regular file (`Path.is_file`). -/
structure DirEntry where
  path : String
  isRegularFile : Bool
deriving DecidableEq

/-- torchvision's `FashionMNIST.classes`: the fixed 10-class label set
used in score_local.py line 30. -/
def fashionMNISTClasses : List String :=
  ["T-shirt/top", "Trouser", "Pullover", "Dress", "Coat",
   "Sandal", "Shirt", "Sneaker", "Bag", "Ankle boot"]

/-- Modelled from the spec: the loaded model, applied to one image, yields
a predicted class index among the 10 FashionMNIST classes (the network
architecture lives in `neural_network.py`, which only ships alongside the
saved artifact). -/
abbrev ScoreModel := String → Fin 10

/-- score_local.py lines 22–24: the list comprehension keeping exactly the
regular files among the entries of `IMAGES_DIR`. -/
def image_paths (entries : List DirEntry) : List String :=
  (entries.filter (fun f => f.isRegularFile)).map (fun f => f.path)

/-- Modelled from the spec: `dataset.FashionMNISTDatasetFromImages`
(score_local.py line 25, not under src/) builds "a dataset wrapper" over
the image paths — one dataset item per image file, in order. -/
def FashionMNISTDatasetFromImages (paths : List String) : List String :=
  paths

/-- Modelled from the spec: `utils_score_nn.predict` (score_local.py
line 28, not under src/) "run[s] predictions" over the dataloader — one
predicted class index per dataset item. -/
def predict (dataloader : List String) (model : ScoreModel) : List (Fin 10) :=
  dataloader.map model

/-- score_local.py lines 22–32: the predictions `main` produces — the
label string of each predicted index, via `FashionMNIST.classes`. -/
def main_predictions (entries : List DirEntry) (model : ScoreModel) :
    List String :=
  let paths := image_paths entries
  let images_dataset := FashionMNISTDatasetFromImages paths
  let predicted_indices := predict images_dataset model
  predicted_indices.map (fun i => fashionMNISTClasses.get (Fin.cast rfl i))

/-- A concrete image-file entry, for witnesses. -/
def entryA : DirEntry := { path := "images/a.png", isRegularFile := true }

/-- A second concrete image-file entry, for witnesses. -/
def entryB : DirEntry := { path := "images/b.png", isRegularFile := true }

/-- A concrete subdirectory entry (not a regular file), for witnesses. -/
def entrySub : DirEntry := { path := "images/sub", isRegularFile := false }

/-- A concrete model that predicts class 3 for every image, for witnesses. -/
def constModel : ScoreModel := fun _ => (3 : Fin 10)

end ScoreLocal

/-! ## Theorems -/

namespace Train

theorem pyInt_of_nonneg {q : ℚ} (hq : 0 ≤ q) : pyInt q = ⌊q⌋ := by
  unfold pyInt
  rw [if_neg (not_lt.mpr hq)]

/-- C2: for a dataset length `L` and a training fraction `f` (a fraction,
so `0 ≤ f ≤ 1`), the training split length computed by
`load_train_val_data` is `⌊L * f⌋`, the floor of the product. -/
theorem load_train_val_data_train_len (L : ℕ) (f : ℚ)
    (h0 : 0 ≤ f) (h1 : f ≤ 1) :
    (load_train_val_data L f).train_len = ⌊(L : ℚ) * f⌋ := by
  unfold load_train_val_data
  exact pyInt_of_nonneg (mul_nonneg (by positivity) h0)

/-- Witness for C2 at `L = 10`, `f = 4/5`: the hypotheses hold and the
training split length is `⌊10 * (4/5)⌋ = 8`. -/
theorem load_train_val_data_train_len_witness :
    0 ≤ (4 / 5 : ℚ) ∧ (4 / 5 : ℚ) ≤ 1 ∧
      (load_train_val_data 10 (4 / 5)).train_len = ⌊(10 : ℚ) * (4 / 5)⌋ :=
  ⟨by norm_num, by norm_num,
    load_train_val_data_train_len 10 (4 / 5) (by norm_num) (by norm_num)⟩

/-- C3: for every dataset length `L` and fraction `f ∈ [0, 1]`, the two
split lengths computed by `load_train_val_data` sum to `L`
(`val_len` is literally `full_train_len - train_len` in train.py line 52). -/
theorem load_train_val_data_split_sum (L : ℕ) (f : ℚ)
    (h0 : 0 ≤ f) (h1 : f ≤ 1) :
    (load_train_val_data L f).train_len + (load_train_val_data L f).val_len
      = (L : ℤ) := by
  unfold load_train_val_data
  ring

/-- Witness for C3 at `L = 10`, `f = 4/5`. -/
theorem load_train_val_data_split_sum_witness :
    0 ≤ (4 / 5 : ℚ) ∧ (4 / 5 : ℚ) ≤ 1 ∧
      (load_train_val_data 10 (4 / 5)).train_len
        + (load_train_val_data 10 (4 / 5)).val_len = (10 : ℤ) :=
  ⟨by norm_num, by norm_num,
    load_train_val_data_split_sum 10 (4 / 5) (by norm_num) (by norm_num)⟩

/-- C1, counterexample: with a pre-existing `model_dir` holding one stale
file, there is an observable point during `save_model` (after the
`rmtree`, before the `copytree`) at which `model_dir` is neither its prior
contents nor the complete new artifact — it is absent.  The claimed
atomic-replacement property is therefore false of the code. -/
theorem save_model_not_atomic :
    ¬ (∀ s ∈ save_model_dir_states (some [staleFile]) 0 false,
        s = some [staleFile] ∨
        s = some (mlflow_pytorch_save_model_artifact 0)) := by
  decide

/-- C1, amended: `save_model` first writes the artifact to the fresh
temporary directory (leaving `model_dir` untouched), then deletes
`model_dir` and then copies the artifact into it; in an execution where
the deletion raises no error, the observable states of `model_dir` are,
in order: its prior contents (twice), absent, and the complete new
artifact.  The replacement is delete-then-copy, not atomic: `model_dir`
passes through an observably absent state. -/
theorem save_model_dir_state_sequence (prior : Option DirTree) (model : Model) :
    save_model_dir_states prior model false
      = [prior, prior, none, some (mlflow_pytorch_save_model_artifact model)] :=
  rfl

/-- C5, counterexample: if the `shutil.rmtree` deletion fails (an error
that `ignore_errors=True` silently swallows), `save_model` still returns,
and a stale file of `model_dir`'s prior contents that is not part of the
new artifact survives in `model_dir` — the claimed unconditional
"none of the prior contents remain" is false of the code. -/
theorem save_model_prior_file_can_survive :
    ¬ (∀ (prior : DirTree) (model : Model) (rmtreeErrorRaised : Bool),
        mlflow_pytorch_load_model
            (save_model_result (some prior) model rmtreeErrorRaised)
          = some model ∧
        ∀ p ∈ prior,
          ((mlflow_pytorch_save_model_artifact model).lookup p.1).isNone →
            p ∉ save_model_result (some prior) model rmtreeErrorRaised) := by
  intro h
  exact ((h [staleFile] 0 true).2 staleFile (by decide) (by decide)) (by decide)

/-- C5, amended: provided the `shutil.rmtree` deletion of the prior
contents raises no error (a failure there is silently ignored and leaves
prior files in place), after `save_model` returns `model_dir` contains a
valid loadable model and none of its prior files that are not part of the
new artifact remain: the run fully overwrites `model_dir` with exactly the
new artifact. -/
theorem save_model_overwrites (prior : DirTree) (model : Model) :
    mlflow_pytorch_load_model (save_model_result (some prior) model false)
      = some model ∧
    ∀ p ∈ prior, p ∉ mlflow_pytorch_save_model_artifact model →
      p ∉ save_model_result (some prior) model false := by
  constructor
  · rfl
  · intro p _ hp
    simpa [save_model_result, shutil_rmtree_ignore_errors,
      shutil_copytree_dirs_exist_ok] using hp

/-- Witness for C5 (amended) at a concrete prior directory and model:
the result is loadable as model `3` and the stale prior file is gone. -/
theorem save_model_overwrites_witness :
    mlflow_pytorch_load_model (save_model_result (some [staleFile]) 3 false)
      = some 3 ∧
    staleFile ∉ save_model_result (some [staleFile]) 3 false :=
  ⟨(save_model_overwrites [staleFile] 3).1,
    (save_model_overwrites [staleFile] 3).2 staleFile (by decide) (by decide)⟩

/-- C9: `save_model` succeeds when the destination `model_dir` does not
exist — whether or not the `rmtree` call raises internally (on a missing
directory it raises `FileNotFoundError`, swallowed by `ignore_errors=True`),
the final contents of `model_dir` are exactly the new artifact; and an
error raised while deleting a pre-existing `model_dir` is never
propagated: the `rmtree` step returns a directory state normally, never an
exception, leaving the prior contents in place. -/
theorem save_model_missing_dest_and_ignore_errors :
    (∀ (model : Model) (rmtreeErrorRaised : Bool),
      save_model_result none model rmtreeErrorRaised
        = mlflow_pytorch_save_model_artifact model) ∧
    (∀ (prior : DirTree),
      shutil_rmtree_ignore_errors (some prior) true = some prior) ∧
    (∀ r : Except Err Unit,
      rmtree_with_ignore_errors true r = Except.ok ()) := by
  refine ⟨?_, fun prior => rfl, fun r => rfl⟩
  intro model rmtreeErrorRaised
  cases rmtreeErrorRaised <;> rfl

/-- C6, counterexample: not every failure propagates to the process
boundary — a failure of the `shutil.rmtree` call inside `save_model` is
suppressed by `ignore_errors=True` and the run still terminates normally,
so the run's outcome is not that error. -/
theorem trainRun_failure_not_always_propagated :
    ¬ (∀ (p : FailPoint) (e : Err),
        (trainRun (injectFailure p e)).2 = Except.error e) := by
  intro h
  exact absurd (h FailPoint.rmtree "permission denied") (by decide)

/-- C6, amended: a failure of any single external call of the training
script propagates unmodified to the process boundary and terminates the
run — except a failure of the `shutil.rmtree` deletion inside
`save_model`, which `ignore_errors=True` silently suppresses, letting the
run terminate normally. -/
theorem trainRun_error_propagation (p : FailPoint) (e : Err) :
    (trainRun (injectFailure p e)).2
      = if p = FailPoint.rmtree then Except.ok () else Except.error e := by
  cases p with
  | loadData => rfl
  | fit i => fin_cases i <;> rfl
  | evaluate i => fin_cases i <;> rfl
  | logMetrics i => fin_cases i <;> rfl
  | mlflowSave => rfl
  | rmtree => rfl
  | copytree => rfl

theorem runSteps_ok_trace (l : List (Event × Except Err Unit))
    (h : (runSteps l).2 = Except.ok ()) :
    (runSteps l).1 = l.map Prod.fst := by
  induction l with
  | nil => rfl
  | cons p rest ih =>
      obtain ⟨ev, r⟩ := p
      cases r with
      | error e => simp [runSteps] at h
      | ok u =>
          cases u
          simp only [runSteps, List.map_cons]
          exact congrArg (List.cons ev) (ih (by simpa [runSteps] using h))

/-- C7: whenever the training script runs to completion, it performed its
steps in exactly this order: load the data, split it, instantiate the
model, then for each epoch 0–4 fit, then evaluate, then log that epoch's
metrics, and only after all five epochs the steps of the one `save_model`
call — whose temp write, delete and copy each appear exactly once. -/
theorem trainRun_step_order (env : TrainEnv)
    (h : (trainRun env).2 = Except.ok ()) :
    (trainRun env).1 = fullTrainTrace ∧
      (trainRun env).1.count Event.mlflowSaveTemp = 1 ∧
      (trainRun env).1.count Event.copytreeDest = 1 := by
  have htr : (trainRun env).1 = fullTrainTrace := runSteps_ok_trace (trainSteps env) h
  exact ⟨htr, by rw [htr]; decide, by rw [htr]; decide⟩

/-- Witness for C7: the all-success run terminates normally and performs
the full trace. -/
theorem trainRun_step_order_witness :
    (trainRun okEnv).2 = Except.ok () ∧ (trainRun okEnv).1 = fullTrainTrace :=
  ⟨by decide, (trainRun_step_order okEnv (by decide)).1⟩

end Train

namespace ScoreLocal

/-- C4: for a directory with exactly `N` regular image files, the scoring
script produces exactly `N` prediction strings, each an element of the
fixed 10-class FashionMNIST label set. -/
theorem main_predictions_complete (entries : List DirEntry)
    (model : ScoreModel) (N : ℕ)
    (h : (entries.filter (fun f => f.isRegularFile)).length = N) :
    (main_predictions entries model).length = N ∧
      ∀ s ∈ main_predictions entries model, s ∈ fashionMNISTClasses := by
  constructor
  · simpa [main_predictions, predict, FashionMNISTDatasetFromImages,
      image_paths] using h
  · intro s hs
    simp only [main_predictions, List.mem_map] at hs
    obtain ⟨i, _, rfl⟩ := hs
    exact List.get_mem _ _ _

/-- Witness for C4: a directory with one image file and one subdirectory
yields exactly one prediction, drawn from the label set. -/
theorem main_predictions_complete_witness :
    (([entryA, entrySub].filter (fun f => f.isRegularFile)).length = 1) ∧
    (main_predictions [entryA, entrySub] constModel).length = 1 ∧
    ∀ s ∈ main_predictions [entryA, entrySub] constModel,
      s ∈ fashionMNISTClasses :=
  ⟨by decide,
    (main_predictions_complete [entryA, entrySub] constModel 1 (by decide)).1,
    (main_predictions_complete [entryA, entrySub] constModel 1 (by decide)).2⟩

/-- C10: a directory entry that is not a regular file is excluded from the
dataset — it does not pass the `Path.is_file` filter — and contributes no
prediction: the predictions of a directory listing containing it are
exactly the predictions of the same listing without it. -/
theorem non_file_entry_contributes_nothing (pre post : List DirEntry)
    (e : DirEntry) (model : ScoreModel) (h : e.isRegularFile = false) :
    e ∉ (pre ++ e :: post).filter (fun f => f.isRegularFile) ∧
      main_predictions (pre ++ e :: post) model
        = main_predictions (pre ++ post) model := by
  constructor
  · simp [List.mem_filter, h]
  · simp [main_predictions, image_paths, List.filter_append,
      List.filter_cons, h]

/-- Witness for C10: a subdirectory entry sitting between two image files
is filtered out and leaves the predictions unchanged. -/
theorem non_file_entry_contributes_nothing_witness :
    entrySub.isRegularFile = false ∧
    entrySub ∉ ([entryA] ++ entrySub :: [entryB]).filter
        (fun f => f.isRegularFile) ∧
    main_predictions ([entryA] ++ entrySub :: [entryB]) constModel
      = main_predictions ([entryA] ++ [entryB]) constModel :=
  ⟨rfl,
    (non_file_entry_contributes_nothing [entryA] [entryB] entrySub constModel
      rfl).1,
    (non_file_entry_contributes_nothing [entryA] [entryB] entrySub constModel
      rfl).2⟩

end ScoreLocal

/-- C8: the training script accepts exactly the flags `--data_dir` and
`--model_dir` — with no flags it uses the defaults `DATA_DIR` and
`MODEL_DIR`, each flag overrides its argument, and any other flag is
rejected — while the scoring script reads its image and model paths from
the hardcoded constants (and takes no CLI flags: its inputs are the
constants alone). -/
theorem train_cli_flags :
    Train.train_main_args []
        = some { data_dir := Train.DATA_DIR, model_dir := Train.MODEL_DIR } ∧
    (∀ v : String, Train.train_main_args ["--data_dir", v]
        = some { data_dir := v, model_dir := Train.MODEL_DIR }) ∧
    (∀ v : String, Train.train_main_args ["--model_dir", v]
        = some { data_dir := Train.DATA_DIR, model_dir := v }) ∧
    (∀ (flag : String) (rest : List String),
      flag ≠ "--data_dir" → flag ≠ "--model_dir" →
        Train.train_main_args (flag :: rest) = none) ∧
    ScoreLocal.IMAGES_DIR = "aml_batch_endpoint/test_data/images" ∧
    ScoreLocal.MODEL_DIR = "aml_batch_endpoint/endpoint_1/model" := by
  refine ⟨rfl, fun v => rfl, fun v => rfl, ?_, rfl, rfl⟩
  intro flag rest h1 h2
  cases rest with
  | nil => rfl
  | cons v rest =>
      simp [Train.train_main_args, Train.train_parse_args, h1, h2]

/-- Witness for C8: an unrecognized flag is rejected. -/
theorem train_cli_flags_witness :
    Train.train_main_args ["--epochs", "3"] = none :=
  train_cli_flags.2.2.2.1 "--epochs" ["3"] (by decide) (by decide)
